import Mathlib

/- Formal model of the mop media-browser discovery and browsing engine.
   The definitions below are a shallow embedding of the Rust sources
   src/upnp.rs and src/app.rs: pure string and list manipulation is
   translated directly; network calls (reqwest, rupnp), the url crate and
   the quick-xml tokenizer are external libraries and are modelled as
   oracle functions carried in a NetEnv record; the quick-xml event loop
   bodies, which are repository code, are translated instruction by
   instruction over an abstract XML event list. -/

namespace Mop

/- Rust str::starts_with over character lists (first argument is the
   pattern, second the haystack). -/
def charsStartWith : List Char → List Char → Bool
  | [], _ => true
  | _ :: _, [] => false
  | p :: ps, h :: hs => p == h && charsStartWith ps hs

/- Rust str::contains(pattern) over character lists. -/
def hasSubstrChars (hay pat : List Char) : Bool :=
  if charsStartWith pat hay then true
  else
    match hay with
    | [] => false
    | _ :: t => hasSubstrChars t pat

/- Rust str::contains on strings (substring containment). -/
def containsRust (hay pat : String) : Bool :=
  hasSubstrChars hay.data pat.data

/- Index of the first occurrence of pat in hay, as in Rust str::find
   (modelled over characters; all strings involved are ASCII). -/
def findSubIdx : List Char → List Char → Nat → Option Nat
  | hay, pat, i =>
    if charsStartWith pat hay then some i
    else
      match hay with
      | [] => none
      | _ :: t => findSubIdx t pat (i + 1)

/- Rust char-by-char lowercasing of a string, as in str::to_lowercase
   restricted to ASCII input. -/
def rustToLower (s : String) : String :=
  String.mk (s.data.map Char.toLower)

/- Rust str::split(sep) over characters: separators delimit (possibly
   empty) segments. -/
def splitOnChar (c : Char) : List Char → List (List Char)
  | [] => [[]]
  | a :: rest =>
    let r := splitOnChar c rest
    if a == c then [] :: r
    else
      match r with
      | h :: t => (a :: h) :: t
      | [] => [[a]]

/- Rust str::split(sep) on strings. -/
def rustSplit (s : String) (c : Char) : List String :=
  (splitOnChar c s.data).map String.mk

/- Rust str::parse::<u64>(): optional leading plus sign, at least one
   ASCII digit, value below 2^64. -/
def parseU64 (s : String) : Option Nat :=
  let cs :=
    match s.data with
    | '+' :: t => t
    | l => l
  if cs = [] then none
  else if cs.all Char.isDigit then
    let n := cs.foldl (fun acc c => acc * 10 + (c.toNat - 48)) 0
    if n < 2 ^ 64 then some n else none
  else none

/- reqwest StatusCode::is_success(): 2xx statuses. -/
def statusSuccess (s : Nat) : Bool :=
  decide (200 ≤ s) && decide (s < 300)

/- The device record of src/upnp.rs lines 6-13. -/
structure UpnpDevice where
  name : String
  location : String
  base_url : String
  device_client : Option String
  content_directory_url : Option String
deriving DecidableEq

/- The progress-event type of src/upnp.rs lines 17-26. -/
inductive DiscoveryMessage where
  | Started
  | DeviceFound (d : UpnpDevice)
  | Phase1Complete
  | Phase2Complete
  | Phase3Complete
  | AllComplete (devices : List UpnpDevice)
  | Error (msg : String)
deriving DecidableEq

/- The path-to-container index: src/app.rs line 30 holds it as a
   HashMap from Vec of path segments to container-id strings, modelled
   extensionally as a lookup function. -/
def ContainerMap : Type := List String → Option String

/- HashMap::insert (overwrites an existing binding for the key). -/
def mapInsert (m : ContainerMap) (k : List String) (v : String) : ContainerMap :=
  fun k' => if k' = k then some v else m k'

/- The container map built by App::new (src/app.rs lines 82 and 88):
   an empty map with the single binding of the empty path to "0". -/
def initialContainerMap : ContainerMap :=
  mapInsert (fun _ => none) [] "0"

/- The prefix walk of src/upnp.rs lines 500-514: extend a running path
   one segment at a time; a mapped prefix updates the running id, the
   first unmapped prefix resets the id to "0" and stops the walk. -/
def prefixWalk (m : ContainerMap) : List String → List String → String → String
  | [], _, currentId => currentId
  | seg :: rest, currentPath, _currentId =>
    let cp := currentPath ++ [seg]
    match m cp with
    | some i => prefixWalk m rest cp i
    | none => "0"

/- Container-id resolution of src/upnp.rs lines 491-516: the empty path
   is the root "0"; a full-path hit is returned directly; otherwise the
   incremental prefix walk runs from the root id. -/
def containerIdFor (m : ContainerMap) (path : List String) : String :=
  if path = [] then "0"
  else
    match m path with
    | some i => i
    | none => prefixWalk m path [] "0"

/- The map update of src/upnp.rs lines 524-530: each (title, id) pair
   reported by a browse of some path is inserted under path ++ [title]. -/
def extendMap (m : ContainerMap) (path : List String)
    (mappings : List (String × String)) : ContainerMap :=
  mappings.foldl (fun acc tc => mapInsert acc (path ++ [tc.1]) tc.2) m

/- Abstract quick-xml event stream: Start tags carry their attribute
   list (attribute values as read by get_attribute_value, src/upnp.rs
   lines 960-971), Text events carry their already-unescaped content
   (quick-xml unescape). The tokenizer itself is library code and is
   supplied as an oracle in NetEnv. -/
inductive XmlEvent where
  | startTag (name : String) (attrs : List (String × String))
  | textNode (s : String)
  | endTag (name : String)
deriving DecidableEq

/- Attribute lookup used by the DIDL parser (src/upnp.rs lines 960-971):
   first attribute with the given name. -/
def getAttr (attrs : List (String × String)) (key : String) : Option String :=
  (attrs.find? (fun a => a.1 == key)).map (fun a => a.2)

/- Parsed pieces of a URL as produced by the url crate (external
   library): scheme, host and explicit port. -/
structure UrlParts where
  scheme : String
  host : Option String
  port : Option Nat
deriving DecidableEq

/- Oracles for all external libraries and the network:
   parseUrl models url::Url::parse plus scheme/host/port extraction
   (none on parse failure); tokenize models a quick_xml Reader over a
   string, yielding the event list before Eof; httpGet models an HTTP
   GET of a URL returning status and body text (none for transport
   errors such as connection failures or timeouts); soapPost models the
   SOAP Browse POST of src/upnp.rs lines 627-634, keyed by control URL
   and ObjectID, returning status and body (none for transport
   errors). -/
structure NetEnv where
  parseUrl : String → Option UrlParts
  tokenize : String → List XmlEvent
  httpGet : String → Option (Nat × String)
  soapPost : String → String → Option (Nat × String)

/- extract_xml_value (src/upnp.rs lines 297-307): text between the
   first occurrence of the open tag and the next close tag. -/
def extract_xml_value (xml tag : String) : Option String :=
  let openTag := "<" ++ tag ++ ">"
  let closeTag := "</" ++ tag ++ ">"
  match findSubIdx xml.data openTag.data 0 with
  | some start =>
    let valueStart := start + openTag.data.length
    let rest := xml.data.drop valueStart
    match findSubIdx rest closeTag.data 0 with
    | some e => some (String.mk (rest.take e))
    | none => none
  | none => none

/- The event loop of parse_content_directory_url (src/upnp.rs lines
   345-396): track service, serviceType and controlURL nesting, collect
   the two text fields per service, and on closing a service whose type
   mentions ContentDirectory with a nonempty control URL return that
   URL, resolved against the device base when relative. -/
def cdUrlLoop (base : String) :
    List XmlEvent → Bool → Bool → Bool → String → String → Option String
  | [], _, _, _, _, _ => none
  | ev :: rest, inSvc, inTy, inCu, ty, cu =>
    match ev with
    | .startTag n _ =>
      if n = "service" then cdUrlLoop base rest true inTy inCu "" ""
      else if n = "serviceType" then cdUrlLoop base rest inSvc true inCu ty cu
      else if n = "controlURL" then cdUrlLoop base rest inSvc inTy true ty cu
      else cdUrlLoop base rest inSvc inTy inCu ty cu
    | .textNode t =>
      if inSvc then
        if inTy then cdUrlLoop base rest inSvc inTy inCu t cu
        else if inCu then cdUrlLoop base rest inSvc inTy inCu ty t
        else cdUrlLoop base rest inSvc inTy inCu ty cu
      else cdUrlLoop base rest inSvc inTy inCu ty cu
    | .endTag n =>
      if n = "service" then
        if containsRust ty "ContentDirectory" && !(cu = "") then
          some (if charsStartWith "http".data cu.data then cu else base ++ cu)
        else cdUrlLoop base rest false inTy inCu ty cu
      else if n = "serviceType" then cdUrlLoop base rest inSvc false inCu ty cu
      else if n = "controlURL" then cdUrlLoop base rest inSvc inTy false ty cu
      else cdUrlLoop base rest inSvc inTy inCu ty cu

/- parse_content_directory_url (src/upnp.rs lines 324-399): the base
   URL is scheme://host:port of the device URL with port defaulting to
   80 (line 340); a device URL that fails to parse yields none. -/
def parse_content_directory_url (net : NetEnv) (deviceDesc deviceUrl : String) :
    Option String :=
  match net.parseUrl deviceUrl with
  | some u =>
    let base := u.scheme ++ "://" ++ u.host.getD "" ++ ":" ++ toString (u.port.getD 80)
    cdUrlLoop base (net.tokenize deviceDesc) false false false "" ""
  | none => none

/- extract_base_url (src/upnp.rs lines 401-412): scheme://host:port of
   the given URL, with the port defaulting to 443 for https and 80
   otherwise; the URL itself when parsing fails or there is no host. -/
def extract_base_url (net : NetEnv) (deviceUrl : String) : String :=
  match net.parseUrl deviceUrl with
  | some u =>
    match u.host with
    | some h =>
      let port := u.port.getD (if u.scheme = "https" then 443 else 80)
      u.scheme ++ "://" ++ h ++ ":" ++ toString port
    | none => deviceUrl
  | none => deviceUrl

/- fetch_device_description (src/upnp.rs lines 309-322): GET of the
   device URL; non-2xx statuses and transport errors yield no
   document. -/
def fetch_device_description (net : NetEnv) (deviceUrl : String) : Option String :=
  match net.httpGet deviceUrl with
  | some (st, body) => if statusSuccess st then some body else none
  | none => none

/- The fields rupnp reports per discovered device (url, device type,
   friendly name; src/upnp.rs lines 97-99). -/
structure RawSsdp where
  url : String
  device_type : String
  friendly_name : String
deriving DecidableEq

/- Construction of an UpnpDevice from an SSDP find (src/upnp.rs lines
   97-127): devices whose lowercased friendly name or device type
   mentions plex get base URL http://host:32400, the rest use
   extract_base_url; the content-directory URL comes from fetching and
   parsing the description document. -/
def mkSsdpDevice (net : NetEnv) (r : RawSsdp) : UpnpDevice :=
  let base_url :=
    if containsRust (rustToLower r.friendly_name) "plex" ||
        containsRust r.device_type "plex" then
      match net.parseUrl r.url with
      | some u =>
        match u.host with
        | some h => "http://" ++ h ++ ":32400"
        | none => extract_base_url net r.url
      | none => extract_base_url net r.url
    else extract_base_url net r.url
  let cd :=
    match fetch_device_description net r.url with
    | some desc => parse_content_directory_url net desc r.url
    | none => none
  { name := r.friendly_name ++ " [" ++ r.device_type ++ "]",
    location := r.url,
    base_url := base_url,
    device_client := some r.device_type,
    content_directory_url := cd }

/- The SSDP collection loop of src/upnp.rs lines 91-136: the stream
   elements are device results (none models an Err result, skipped by
   the if-let at line 94); each success is counted and collected, and
   the loop breaks once the count reaches 20. -/
def ssdpCollect (net : NetEnv) : List (Option RawSsdp) → Nat → List UpnpDevice
  | [], _ => []
  | none :: rest, c => ssdpCollect net rest c
  | some r :: rest, c =>
    let d := mkSsdpDevice net r
    if 20 ≤ c + 1 then [d] else d :: ssdpCollect net rest (c + 1)

/- ssdp_discovery (src/upnp.rs lines 82-144): the stream argument is
   none when rupnp::discover itself fails, in which case the failure is
   only logged (line 139) and the function returns Ok with an empty
   device list; otherwise the collection loop runs with the counter at
   zero. The function never returns Err. -/
def ssdp_discovery (net : NetEnv) (stream : Option (List (Option RawSsdp))) :
    List UpnpDevice :=
  match stream with
  | none => []
  | some s => ssdpCollect net s 0

/- Candidate paths probed by the generic port scan (src/upnp.rs line
   268). -/
def scan_probe_paths : List String := ["/", "/status", "/identity"]

/- Whether a GET of the URL counts as a hit (src/upnp.rs lines
   272-275): a response arrived and its status is 2xx or 401. -/
def probeHit (net : NetEnv) (u : String) : Bool :=
  match net.httpGet u with
  | some (st, _) => statusSuccess st || st == 401
  | none => false

/- The server name chosen per port (src/upnp.rs lines 276-281). -/
def scanServerName (ip : String) (port : Nat) : String :=
  let tail := " (" ++ ip ++ ":" ++ toString port ++ ")"
  if port = 32400 then "Plex Server" ++ tail
  else if port = 8096 then "Jellyfin Server" ++ tail
  else if port = 8920 then "Emby Server" ++ tail
  else "Media Server" ++ tail

/- scan_single_endpoint (src/upnp.rs lines 234-295). For port 32469 the
   probe fetches /DeviceDescription.xml and, on a 2xx response, builds
   a device from the friendly name and resolved content-directory URL,
   returning none on any failure. For other ports the first probe path
   answering 2xx or 401 registers the endpoint as a device. -/
def scan_single_endpoint (net : NetEnv) (ip : String) (port : Nat) :
    Option UpnpDevice :=
  let url := "http://" ++ ip ++ ":" ++ toString port
  if port = 32469 then
    let descUrl := url ++ "/DeviceDescription.xml"
    match net.httpGet descUrl with
    | some (st, descText) =>
      if statusSuccess st then
        let friendly := (extract_xml_value descText "friendlyName").getD
          ("Plex DLNA (" ++ ip ++ ")")
        let cd := parse_content_directory_url net descText descUrl
        some
          { name := friendly ++ " [MediaServer:1]",
            location := descUrl,
            base_url := url,
            device_client := some "Plex DLNA",
            content_directory_url := cd }
      else none
    | none => none
  else
    match scan_probe_paths.find? (fun e => probeHit net (url ++ e)) with
    | some _ =>
      some
        { name := scanServerName ip port,
          location := url,
          base_url := url,
          device_client := some "DirectScan",
          content_directory_url := none }
    | none => none

/- The IP suffixes and ports of the scan grid (src/upnp.rs lines
   157-158). -/
def promising_ips : List Nat := [21, 1, 2, 10, 20, 50, 100, 150, 200, 254]

def media_ports : List Nat := [32469, 32400, 8096, 8920]

/- The per-endpoint task results in spawn order (src/upnp.rs lines
   164-183; join_all preserves the order tasks were queued in). -/
def scanGridResults (net : NetEnv) (networkBase : String) :
    List (Option UpnpDevice) :=
  promising_ips.flatMap (fun s =>
    media_ports.map (fun p =>
      scan_single_endpoint net (networkBase ++ "." ++ toString s) p))

/- The accumulate-unless-duplicate-location fold shared by the SSDP
   merge (src/upnp.rs lines 56-60) and the port-scan result collection
   (lines 186-194). -/
def dedupByLocation : List UpnpDevice → List UpnpDevice → List UpnpDevice
  | acc, [] => acc
  | acc, d :: rest =>
    if acc.any (fun x => x.location == d.location) then dedupByLocation acc rest
    else dedupByLocation (acc ++ [d]) rest

/- targeted_port_scan_parallel (src/upnp.rs lines 146-198): no network
   base (get_local_network none) yields an empty result; otherwise the
   grid results are collected, successes deduplicated by location, and
   a DeviceFound message is sent per kept device. The function never
   returns Err. -/
def targeted_port_scan_parallel (net : NetEnv) (networkBase : Option String) :
    List UpnpDevice :=
  match networkBase with
  | none => []
  | some base => dedupByLocation [] ((scanGridResults net base).filterMap id)

/- The port-scan merge fold of src/upnp.rs lines 67-75: a scan device
   is appended, and announced with a DeviceFound message, unless some
   already-collected device matches it on both location and base_url.
   The first component is the final device list, the second the list of
   devices that were appended (in order). -/
def scanMerge : List UpnpDevice → List UpnpDevice →
    List UpnpDevice × List UpnpDevice
  | acc, [] => (acc, [])
  | acc, d :: rest =>
    if acc.any (fun x => x.location == d.location && x.base_url == d.base_url) then
      scanMerge acc rest
    else
      let r := scanMerge (acc ++ [d]) rest
      (r.1, d :: r.2)

/- The device list carried by the final AllComplete of
   discover_with_rupnp (src/upnp.rs lines 54-79). -/
def finalDevices (ssdpDevs scanDevs : List UpnpDevice) : List UpnpDevice :=
  (scanMerge (dedupByLocation [] ssdpDevs) scanDevs).1

/- The scan devices announced by the orchestrator itself at line 71. -/
def addedScanDevices (ssdpDevs scanDevs : List UpnpDevice) : List UpnpDevice :=
  (scanMerge (dedupByLocation [] ssdpDevs) scanDevs).2

/- The messages discover_with_rupnp sends after joining both probes
   (src/upnp.rs lines 63-79): the two phase markers, a DeviceFound per
   newly merged scan device, the third phase marker and the single
   AllComplete with the merged list. -/
def orchestratorTail (ssdpDevs scanDevs : List UpnpDevice) :
    List DiscoveryMessage :=
  [DiscoveryMessage.Phase1Complete, DiscoveryMessage.Phase2Complete] ++
    (addedScanDevices ssdpDevs scanDevs).map DiscoveryMessage.DeviceFound ++
    [DiscoveryMessage.Phase3Complete,
     DiscoveryMessage.AllComplete (finalDevices ssdpDevs scanDevs)]

/- An interleaving of two message sequences, modelling the arbitrary
   order in which the two concurrently running probes (tokio::join at
   src/upnp.rs line 49) deliver their sends on the shared channel. -/
inductive Interleaving : List DiscoveryMessage → List DiscoveryMessage →
    List DiscoveryMessage → Prop where
  | nil : Interleaving [] [] []
  | left {x xs ys zs} : Interleaving xs ys zs → Interleaving (x :: xs) ys (x :: zs)
  | right {y xs ys zs} : Interleaving xs ys zs → Interleaving xs (y :: ys) (y :: zs)

/- The event traces a full discovery run can produce, for given probe
   inputs (src/upnp.rs lines 28-80): Started first, then some
   interleaving of the DeviceFound messages the SSDP probe (line 129)
   and the port-scan probe (line 190) send while racing, then the
   orchestrator tail. -/
def IsDiscoveryTrace (net : NetEnv) (stream : Option (List (Option RawSsdp)))
    (networkBase : Option String) (t : List DiscoveryMessage) : Prop :=
  ∃ mid,
    Interleaving
      ((ssdp_discovery net stream).map DiscoveryMessage.DeviceFound)
      ((targeted_port_scan_parallel net networkBase).map DiscoveryMessage.DeviceFound)
      mid ∧
    t = DiscoveryMessage.Started :: mid ++
      orchestratorTail (ssdp_discovery net stream)
        (targeted_port_scan_parallel net networkBase)


/- The per-entry record built by the DIDL parser (src/upnp.rs lines
   590-599). -/
structure UpnpItem where
  id : String
  title : String
  is_container : Bool
  resource_url : Option String
  size : Option Nat
  duration : Option String
  format : Option String
deriving DecidableEq

/- The loop state of parse_didl_response (src/upnp.rs lines 863-872). -/
structure DidlState where
  items : List UpnpItem
  mappings : List (String × String)
  current_item : Option UpnpItem
  in_title : Bool
  in_resource : Bool
  current_title : String

def didlInitState : DidlState :=
  { items := [], mappings := [], current_item := none,
    in_title := false, in_resource := false, current_title := "" }

/- One step of the DIDL event loop (src/upnp.rs lines 874-955). A
   container start opens a fresh container record and clears the
   running title; an item start opens a fresh item record; a res start
   reads the size (parsed as u64), duration and protocolInfo attributes
   into the open record, the format being the third colon-separated
   field of protocolInfo; text inside dc:title sets both the running
   title and the open record title, text inside res sets the resource
   URL; closing a container with a nonempty running title records a
   (title, id) navigation mapping, and closing a container or item
   appends the open record to the item list. -/
def didlStep (st : DidlState) (ev : XmlEvent) : DidlState :=
  match ev with
  | .startTag n attrs =>
    if n = "container" then
      { st with
        current_item := some
          { id := (getAttr attrs "id").getD "", title := "",
            is_container := true, resource_url := none,
            size := none, duration := none, format := none },
        current_title := "" }
    else if n = "item" then
      { st with
        current_item := some
          { id := (getAttr attrs "id").getD "", title := "",
            is_container := false, resource_url := none,
            size := none, duration := none, format := none } }
    else if n = "dc:title" then { st with in_title := true }
    else if n = "res" then
      { st with
        in_resource := true,
        current_item := st.current_item.map (fun it =>
          { it with
            size := (getAttr attrs "size").bind parseU64,
            duration := getAttr attrs "duration",
            format := (getAttr attrs "protocolInfo").bind
              (fun p => (rustSplit p ':').get? 2) }) }
    else st
  | .textNode t =>
    if st.in_title then
      { st with
        current_title := t,
        current_item := st.current_item.map (fun it => { it with title := t }) }
    else if st.in_resource then
      { st with
        current_item := st.current_item.map (fun it =>
          { it with resource_url := some t }) }
    else st
  | .endTag n =>
    if n = "container" then
      match st.current_item with
      | some it =>
        { st with
          current_item := none,
          mappings :=
            if st.current_title = "" then st.mappings
            else st.mappings ++ [(st.current_title, it.id)],
          items := st.items ++ [it] }
      | none => st
    else if n = "item" then
      match st.current_item with
      | some it => { st with current_item := none, items := st.items ++ [it] }
      | none => st
    else if n = "dc:title" then { st with in_title := false }
    else if n = "res" then { st with in_resource := false }
    else st

/- The DIDL-Lite event loop of parse_didl_response run to completion
   over a DIDL fragment, returning the parsed entries and the
   navigation mappings (src/upnp.rs lines 863-957). -/
def parseDidlEvents (evs : List XmlEvent) : List UpnpItem × List (String × String) :=
  let st := evs.foldl didlStep didlInitState
  (st.items, st.mappings)

/- The error outcomes of the SOAP Browse client, one constructor per
   distinct `return Err` site of src/upnp.rs: transportError for a `?`
   failure of send or text (lines 627-643), requestFailed for the
   non-2xx branch at line 640, soapFaultInResponse for the fault-marker
   branch at line 647, and noResultElement for the missing Result
   element at line 853. The Rust code carries these as formatted
   strings; the constructors keep the distinguishing data. -/
inductive BrowseErr where
  | transportError
  | requestFailed (status : Nat)
  | soapFaultInResponse (body : String)
  | noResultElement
deriving DecidableEq

/- extract_didl_from_soap (src/upnp.rs lines 817-854): the text content
   of the first Result element, or the no-Result error. -/
def soapResultText : List XmlEvent → Bool → Except BrowseErr String
  | [], _ => Except.error BrowseErr.noResultElement
  | .startTag n _ :: rest, inResult =>
    soapResultText rest (if n = "Result" then true else inResult)
  | .textNode t :: rest, inResult =>
    if inResult then Except.ok t else soapResultText rest inResult
  | .endTag n :: rest, inResult =>
    soapResultText rest (if n = "Result" then false else inResult)

/- parse_didl_response (src/upnp.rs lines 856-958): unwrap the escaped
   DIDL document from the SOAP Result element, then run the DIDL event
   loop over it. -/
def parse_didl_response (net : NetEnv) (xml : String) :
    Except BrowseErr (List UpnpItem × List (String × String)) :=
  match soapResultText (net.tokenize xml) false with
  | Except.error e => Except.error e
  | Except.ok didl => Except.ok (parseDidlEvents (net.tokenize didl))

/- browse_upnp_content_directory_with_id (src/upnp.rs lines 601-651):
   POST the Browse envelope; a transport failure propagates; a non-2xx
   status is returned as the status error before the body is examined
   further; a 2xx body containing either fault marker is the SOAP-fault
   error; otherwise the body is parsed as a DIDL response. -/
def browse_upnp_content_directory_with_id (net : NetEnv)
    (contentDirUrl containerId : String) :
    Except BrowseErr (List UpnpItem × List (String × String)) :=
  match net.soapPost contentDirUrl containerId with
  | none => Except.error BrowseErr.transportError
  | some (st, body) =>
    if statusSuccess st then
      if containsRust body "soap:Fault" || containsRust body "SOAP-ENV:Fault" then
        Except.error (BrowseErr.soapFaultInResponse body)
      else parse_didl_response net body
    else Except.error (BrowseErr.requestFailed st)

/- The listing types of src/app.rs lines 47-60. -/
structure FileMetadata where
  size : Option Nat
  duration : Option String
  format : Option String
deriving DecidableEq

structure DirectoryItem where
  name : String
  is_directory : Bool
  url : Option String
  metadata : Option FileMetadata
deriving DecidableEq

/- The UpnpItem-to-DirectoryItem conversion of src/upnp.rs lines
   532-547: metadata is attached only when the entry is not a
   container. -/
def didlToDirectoryItem (it : UpnpItem) : DirectoryItem :=
  { name := it.title,
    is_directory := it.is_container,
    url := it.resource_url,
    metadata :=
      if it.is_container then none
      else some { size := it.size, duration := it.duration, format := it.format } }

/- parse_json_directory (src/upnp.rs lines 756-780): a body mentioning
   a MediaContainer key yields one Plex placeholder entry, one
   mentioning an Items key yields one library placeholder entry; the
   function never fails. -/
def parse_json_directory (body : String) : List DirectoryItem :=
  if containsRust body "\"MediaContainer\"" then
    [{ name := "Plex Media Server", is_directory := true, url := none,
       metadata := none }]
  else if containsRust body "\"Items\"" then
    [{ name := "Media Library", is_directory := true, url := none,
       metadata := none }]
  else []

/- The endpoints the HTTP fallback probes (src/upnp.rs lines 715-725). -/
def httpBrowseEndpoints (path : List String) : List String :=
  if path = [] then
    ["/library/sections", "/web/index.html", "/Users", "/Items", "/"]
  else ["/" ++ String.intercalate "/" path]

/- browse_http_directory (src/upnp.rs lines 710-754): probe the
   endpoints in order; at the first 2xx response the body is parsed
   with parse_json_directory and the loop stops (parse_json_directory
   never fails, so the HTML branch at line 740 is unreachable); an
   empty accumulated list is the no-browsable-content error. -/
def browse_http_directory (net : NetEnv) (baseUrl : String) (path : List String) :
    Except String (List DirectoryItem) :=
  let items :=
    match (httpBrowseEndpoints path).findSome? (fun e =>
        match net.httpGet (baseUrl ++ e) with
        | some (st, body) =>
          if statusSuccess st then some (parse_json_directory body) else none
        | none => none) with
    | some its => its
    | none => []
  if items.isEmpty then Except.error "No browsable content found" else Except.ok items

/- The browse-level errors accumulated by async_browse_directory, one
   constructor per message pushed onto its errors vector (src/upnp.rs
   lines 550-571); the Rust code joins the formatted strings with a
   semicolon before returning them. -/
inductive NavError where
  | upnpFailed (e : BrowseErr)
  | noContentDirectory
  | httpBrowseFailed (msg : String)
deriving DecidableEq

/- The shared tail of async_browse_directory (src/upnp.rs lines
   562-573): try the HTTP fallback, appending its entries on success
   and its error message on failure; the error slot is filled whenever
   any error was accumulated. -/
def httpFallback (net : NetEnv) (server : UpnpDevice) (path : List String)
    (items : List DirectoryItem) (errors : List NavError) (m : ContainerMap) :
    (List DirectoryItem × Option (List NavError)) × ContainerMap :=
  match browse_http_directory net server.base_url path with
  | Except.ok httpItems =>
    ((items ++ httpItems, if errors.isEmpty then none else some errors), m)
  | Except.error e =>
    ((items, some (errors ++ [NavError.httpBrowseFailed e])), m)

/- async_browse_directory (src/upnp.rs lines 486-574): resolve the
   container id for the path, and when the device has a
   content-directory URL issue the SOAP Browse; on success extend the
   container map with the reported child-container mappings and return
   the converted entries with no error, short-circuiting the fallback;
   on SOAP failure, or when the device has no content-directory URL,
   record the corresponding error and run the HTTP fallback. The
   content-directory branch (src/upnp.rs lines 519-560) is factored
   into browseWithCd. -/
def browseWithCd (net : NetEnv) (server : UpnpDevice) (path : List String)
    (m : ContainerMap) (cdUrl : String) :
    (List DirectoryItem × Option (List NavError)) × ContainerMap :=
  match browse_upnp_content_directory_with_id net cdUrl (containerIdFor m path) with
  | Except.ok r =>
    ((r.1.map didlToDirectoryItem, none), extendMap m path r.2)
  | Except.error e => httpFallback net server path [] [NavError.upnpFailed e] m

def async_browse_directory (net : NetEnv) (server : UpnpDevice)
    (path : List String) (m : ContainerMap) :
    (List DirectoryItem × Option (List NavError)) × ContainerMap :=
  match server.content_directory_url with
  | some cdUrl => browseWithCd net server path m cdUrl
  | none => httpFallback net server path [] [NavError.noContentDirectory] m

/- Container maps reachable in a session: App::new seeds the map with
   the root binding (src/app.rs lines 82-88), and the only mutation of
   the map afterwards is the one performed inside a browse call
   (src/app.rs line 284 passes it mutably to browse_directory, which
   runs async_browse_directory). -/
inductive ReachableMap : ContainerMap → Prop where
  | init : ReachableMap initialContainerMap
  | browse (net : NetEnv) (server : UpnpDevice) (path : List String) {m : ContainerMap} :
      ReachableMap m → ReachableMap (async_browse_directory net server path m).2

/- The discovery-control fields of the App state (src/app.rs lines
   15-33): whether a receiver for a running discovery is held, the
   is_discovering flag, and a ghost counter of how many times
   upnp::start_discovery has been invoked (each invocation spawns one
   discovery run and creates one fresh channel). -/
structure AppDiscoveryState where
  discovery_receiver : Option Nat
  is_discovering : Bool
  spawned_runs : Nat
deriving DecidableEq

/- App::start_discovery (src/app.rs lines 92-102): when a receiver is
   already held the call returns immediately; otherwise one run is
   spawned and its fresh receiver is stored. -/
def appStartDiscovery (s : AppDiscoveryState) (freshReceiver : Nat) :
    AppDiscoveryState :=
  if s.discovery_receiver.isSome then s
  else
    { discovery_receiver := some freshReceiver,
      is_discovering := true,
      spawned_runs := s.spawned_runs + 1 }

/- The trace in which the SSDP messages all precede the scan messages. -/
def canonicalTrace (net : NetEnv) (stream : Option (List (Option RawSsdp)))
    (networkBase : Option String) : List DiscoveryMessage :=
  DiscoveryMessage.Started ::
    ((ssdp_discovery net stream).map DiscoveryMessage.DeviceFound ++
      (targeted_port_scan_parallel net networkBase).map DiscoveryMessage.DeviceFound) ++
    orchestratorTail (ssdp_discovery net stream)
      (targeted_port_scan_parallel net networkBase)

/- Message classifiers used to count events of a trace. -/
def isErrorMsg : DiscoveryMessage → Bool
  | .Error _ => true
  | _ => false

def isAllCompleteMsg : DiscoveryMessage → Bool
  | .AllComplete _ => true
  | _ => false

/- Two devices differing in location. -/
def locNe (a b : UpnpDevice) : Prop := a.location ≠ b.location

/- Two devices differing in location or in base URL. -/
def locBaseNe (a b : UpnpDevice) : Prop :=
  ¬ (a.location = b.location ∧ a.base_url = b.base_url)

/- Concrete inputs used by several closed theorems below: a network in
   which the host 10.0.21 serves a Plex device description at port
   32469, found both by SSDP and by the port scan. -/
def c1Net : NetEnv :=
  { parseUrl := fun s =>
      if s = "http://10.0.21:32469/DeviceDescription.xml" then
        some { scheme := "http", host := some "10.0.21", port := some 32469 }
      else none,
    tokenize := fun _ => [],
    httpGet := fun u =>
      if u = "http://10.0.21:32469/DeviceDescription.xml" then some (200, "")
      else none,
    soapPost := fun _ _ => none }

def c1Stream : Option (List (Option RawSsdp)) :=
  some [some
    { url := "http://10.0.21:32469/DeviceDescription.xml",
      device_type := "urn:schemas-upnp-org:device:MediaServer:1",
      friendly_name := "Plex Media Server" }]

/- The device the SSDP probe builds from c1Stream: the friendly name
   mentions Plex, so the base URL is rewritten to port 32400. -/
def c1SsdpDevice : UpnpDevice :=
  { name := "Plex Media Server [urn:schemas-upnp-org:device:MediaServer:1]",
    location := "http://10.0.21:32469/DeviceDescription.xml",
    base_url := "http://10.0.21:32400",
    device_client := some "urn:schemas-upnp-org:device:MediaServer:1",
    content_directory_url := none }

/- The device the port scan builds from the same host: same location
   (the description URL), but base URL kept at port 32469. -/
def c1ScanDevice : UpnpDevice :=
  { name := "Plex DLNA (10.0.21) [MediaServer:1]",
    location := "http://10.0.21:32469/DeviceDescription.xml",
    base_url := "http://10.0.21:32469",
    device_client := some "Plex DLNA",
    content_directory_url := none }

/- The concrete DIDL-Lite fragment of claim C6, as its quick-xml event
   stream: two containers and one item whose res element carries
   size 123, duration 0:01:30 and an audio/mpeg protocolInfo. -/
def c6Events : List XmlEvent :=
  [XmlEvent.startTag "DIDL-Lite" [],
   XmlEvent.startTag "container" [("id", "c1")],
   XmlEvent.startTag "dc:title" [], XmlEvent.textNode "Movies",
   XmlEvent.endTag "dc:title",
   XmlEvent.endTag "container",
   XmlEvent.startTag "container" [("id", "c2")],
   XmlEvent.startTag "dc:title" [], XmlEvent.textNode "Music",
   XmlEvent.endTag "dc:title",
   XmlEvent.endTag "container",
   XmlEvent.startTag "item" [("id", "i1")],
   XmlEvent.startTag "dc:title" [], XmlEvent.textNode "Song",
   XmlEvent.endTag "dc:title",
   XmlEvent.startTag "res"
     [("size", "123"), ("duration", "0:01:30"),
      ("protocolInfo", "http-get:*:audio/mpeg:*")],
   XmlEvent.textNode "http://10.0.0.9/song.mp3",
   XmlEvent.endTag "res",
   XmlEvent.endTag "item",
   XmlEvent.endTag "DIDL-Lite"]

/- The container map of claim C4: only the single-segment path A is
   mapped (besides the root binding). -/
def c4Map : ContainerMap := mapInsert initialContainerMap ["A"] "5"

/- ------------------------------------------------------------------
   Theorems.
   ------------------------------------------------------------------ -/

/- A nonempty unmapped suffix forces the prefix walk to the root id. -/
theorem prefixWalk_unmapped (m : ContainerMap) :
    ∀ (segs currentPath : List String) (currentId : String), segs ≠ [] →
      m (currentPath ++ segs) = none →
      prefixWalk m segs currentPath currentId = "0" := by
  intro segs
  induction segs with
  | nil => intro _ _ h _; exact absurd rfl h
  | cons s rest ih =>
    intro currentPath currentId _ hm
    show (match m (currentPath ++ [s]) with
      | some i => prefixWalk m rest (currentPath ++ [s]) i
      | none => "0") = "0"
    by_cases hrest : rest = []
    · subst hrest
      rw [hm]
    · cases hcp : m (currentPath ++ [s]) with
      | none => rfl
      | some i =>
        show prefixWalk m rest (currentPath ++ [s]) i = "0"
        have hm' : m ((currentPath ++ [s]) ++ rest) = none := by
          rw [List.append_assoc]
          simpa using hm
        exact ih (currentPath ++ [s]) i hrest hm'

/-- C4: for every nonempty path with no exact mapping in the container
map, resolution walks prefixes and falls back to the root identifier
"0" at the first unmapped prefix, so the result is "0" and not an
error (src/upnp.rs lines 491-516). -/
theorem C4_unmapped_path_resolves_to_root (m : ContainerMap)
    (path : List String) (hne : path ≠ []) (hm : m path = none) :
    containerIdFor m path = "0" := by
  unfold containerIdFor
  rw [if_neg hne, hm]
  have := prefixWalk_unmapped m path [] "0" hne (by simpa using hm)
  simpa using this

/-- Witness for C4 at the claim's own instance: with only the path [A]
mapped (to "5"), resolving [A, B] is not an error and returns "0". -/
theorem C4_unmapped_path_resolves_to_root_witness :
    (["A", "B"] : List String) ≠ [] ∧ c4Map ["A", "B"] = none ∧
    c4Map ["A"] = some "5" ∧ containerIdFor c4Map ["A", "B"] = "0" :=
  ⟨by decide, rfl, rfl,
    C4_unmapped_path_resolves_to_root c4Map ["A", "B"] (by decide) rfl⟩

/- Extending the map after a browse never touches the root binding:
   every inserted key has the browsed path plus one title segment. -/
theorem extendMap_preserves_root (path : List String) :
    ∀ (mappings : List (String × String)) (m : ContainerMap),
      m [] = some "0" → extendMap m path mappings [] = some "0" := by
  intro mappings
  induction mappings with
  | nil => intro m h; exact h
  | cons tc rest ih =>
    intro m h
    show extendMap (mapInsert m (path ++ [tc.1]) tc.2) path rest [] = some "0"
    apply ih
    show (if ([] : List String) = path ++ [tc.1] then some tc.2 else m []) = some "0"
    rw [if_neg, h]
    intro he
    have hl := congrArg List.length he
    simp at hl

/- The browse call either leaves the container map unchanged or
   extends it with the reported child mappings. -/
theorem async_browse_map_cases (net : NetEnv) (server : UpnpDevice)
    (path : List String) (m : ContainerMap) :
    (async_browse_directory net server path m).2 = m ∨
    ∃ mappings, (async_browse_directory net server path m).2 =
      extendMap m path mappings := by
  have hfb : ∀ items errors,
      (httpFallback net server path items errors m).2 = m := by
    intro items errors
    unfold httpFallback
    cases browse_http_directory net server.base_url path <;> rfl
  unfold async_browse_directory
  cases server.content_directory_url with
  | none =>
    refine Or.inl ?_
    show (httpFallback net server path [] [NavError.noContentDirectory] m).2 = m
    exact hfb _ _
  | some cdUrl =>
    show (browseWithCd net server path m cdUrl).2 = m ∨
      ∃ mappings, (browseWithCd net server path m cdUrl).2 = extendMap m path mappings
    unfold browseWithCd
    cases browse_upnp_content_directory_with_id net cdUrl
        (containerIdFor m path) with
    | error e =>
      refine Or.inl ?_
      show (httpFallback net server path [] [NavError.upnpFailed e] m).2 = m
      exact hfb _ _
    | ok r => exact Or.inr ⟨r.2, rfl⟩

/- The root binding of the container map holds in every reachable
   state. -/
theorem reachable_root_binding :
    ∀ {m : ContainerMap}, ReachableMap m → m [] = some "0" := by
  intro m h
  induction h with
  | init => rfl
  | browse net server path hr ih =>
    rcases async_browse_map_cases net server path _ with he | ⟨maps, he⟩
    · rw [he]; exact ih
    · rw [he]; exact extendMap_preserves_root path maps _ ih

/-- C5: in every reachable state of the container map the empty path is
bound to the root identifier "0" (the binding App::new creates,
src/app.rs line 88, is never overwritten because every key inserted by
a browse has at least one segment, src/upnp.rs lines 525-529), and
resolution of the empty path returns "0". -/
theorem C5_root_binding_invariant (m : ContainerMap) (h : ReachableMap m) :
    m [] = some "0" ∧ containerIdFor m [] = "0" :=
  ⟨reachable_root_binding h, rfl⟩

/-- Witness for C5 at the initial state, before any browse occurred. -/
theorem C5_root_binding_invariant_witness :
    ReachableMap initialContainerMap ∧
    (initialContainerMap [] = some "0" ∧
      containerIdFor initialContainerMap [] = "0") :=
  ⟨ReachableMap.init, C5_root_binding_invariant _ ReachableMap.init⟩

/-- C6: for the DIDL-Lite fragment with two containers and one item
whose res has size 123 and duration 0:01:30, the parser produces
exactly three entries, the two containers with is_directory true and no
metadata, the item with is_directory false and metadata carrying the
integer size 123 and the raw duration string (src/upnp.rs lines
856-958 and 532-547). -/
theorem C6_didl_parse_three_entries :
    (parseDidlEvents c6Events).1.map didlToDirectoryItem =
      [{ name := "Movies", is_directory := true, url := none, metadata := none },
       { name := "Music", is_directory := true, url := none, metadata := none },
       { name := "Song", is_directory := false,
         url := some "http://10.0.0.9/song.mp3",
         metadata := some { size := some 123, duration := some "0:01:30",
                            format := some "audio/mpeg" } }] := by
  rfl

/-- C7: starting discovery while a receiver for a running discovery is
already held is a no-op: the state is returned unchanged, so no
additional run is spawned (the ghost counter is unchanged) and the
stored receiver is not replaced (src/app.rs lines 92-102). -/
theorem C7_second_start_is_noop (s : AppDiscoveryState) (freshReceiver : Nat)
    (h : s.discovery_receiver.isSome = true) :
    appStartDiscovery s freshReceiver = s := by
  unfold appStartDiscovery
  rw [if_pos h]

/-- Witness for C7: a state holding receiver 7 is left untouched by a
second start with a fresh receiver 9. -/
theorem C7_second_start_is_noop_witness :
    (AppDiscoveryState.mk (some 7) true 1).discovery_receiver.isSome = true ∧
    appStartDiscovery (AppDiscoveryState.mk (some 7) true 1) 9 =
      AppDiscoveryState.mk (some 7) true 1 :=
  ⟨rfl, C7_second_start_is_noop _ 9 rfl⟩

/-- C2 counterexample: a Browse response with HTTP status 500 whose
body contains the marker soap:Fault is reported as the HTTP-status
error of src/upnp.rs line 640, not as the SOAP-fault error of line 647,
because the status check runs first; so a fault-marker body does not
yield a SoapFault regardless of HTTP status. -/
theorem C2_counterexample :
    (NetEnv.mk (fun _ => none) (fun _ => []) (fun _ => none)
        (fun _ _ => some (500, "<e>soap:Fault</e>"))).soapPost "u" "0" =
      some (500, "<e>soap:Fault</e>") ∧
    containsRust "<e>soap:Fault</e>" "soap:Fault" = true ∧
    browse_upnp_content_directory_with_id
        (NetEnv.mk (fun _ => none) (fun _ => []) (fun _ => none)
          (fun _ _ => some (500, "<e>soap:Fault</e>"))) "u" "0" =
      Except.error (BrowseErr.requestFailed 500) ∧
    BrowseErr.requestFailed 500 ≠ BrowseErr.soapFaultInResponse "<e>soap:Fault</e>" := by
  refine ⟨rfl, rfl, rfl, ?_⟩
  intro h
  exact BrowseErr.noConfusion h

/-- C2 (amended): for every Browse response with a 2xx status whose
body contains soap:Fault or SOAP-ENV:Fault anywhere, the client
returns the SOAP-fault error even though the transport succeeded; for
non-2xx statuses the HTTP-status error takes precedence (src/upnp.rs
lines 636-650). -/
theorem C2_soap_fault_on_success_status (net : NetEnv) (url cid : String)
    (st : Nat) (body : String)
    (hpost : net.soapPost url cid = some (st, body))
    (hst : statusSuccess st = true)
    (hfault : containsRust body "soap:Fault" = true ∨
      containsRust body "SOAP-ENV:Fault" = true) :
    browse_upnp_content_directory_with_id net url cid =
      Except.error (BrowseErr.soapFaultInResponse body) := by
  unfold browse_upnp_content_directory_with_id
  rw [hpost]
  show (if statusSuccess st = true then _ else _) = _
  rw [if_pos hst, if_pos]
  rcases hfault with h | h <;> simp [h]

/-- Witness for C2: a 200 response whose body contains SOAP-ENV:Fault
is reported as the SOAP-fault error. -/
theorem C2_soap_fault_on_success_status_witness :
    (NetEnv.mk (fun _ => none) (fun _ => []) (fun _ => none)
        (fun _ _ => some (200, "<r>SOAP-ENV:Fault</r>"))).soapPost "u" "0" =
      some (200, "<r>SOAP-ENV:Fault</r>") ∧
    statusSuccess 200 = true ∧
    containsRust "<r>SOAP-ENV:Fault</r>" "SOAP-ENV:Fault" = true ∧
    browse_upnp_content_directory_with_id
        (NetEnv.mk (fun _ => none) (fun _ => []) (fun _ => none)
          (fun _ _ => some (200, "<r>SOAP-ENV:Fault</r>"))) "u" "0" =
      Except.error (BrowseErr.soapFaultInResponse "<r>SOAP-ENV:Fault</r>") :=
  ⟨rfl, rfl, rfl,
    C2_soap_fault_on_success_status _ "u" "0" 200 "<r>SOAP-ENV:Fault</r>"
      rfl rfl (Or.inr rfl)⟩

/-- C8: for every scanned endpoint on a port other than 32469, if any
of the probed paths /, /status, /identity answers with a 2xx status or
with 401, the endpoint is registered as a discovered device whose
location is the endpoint URL (src/upnp.rs lines 267-292). -/
theorem C8_hit_or_401_registers_device (net : NetEnv) (ip : String)
    (port : Nat) (hport : port ≠ 32469)
    (hhit : ∃ e ∈ scan_probe_paths,
      probeHit net ("http://" ++ ip ++ ":" ++ toString port ++ e) = true) :
    ∃ d, scan_single_endpoint net ip port = some d ∧
      d.location = "http://" ++ ip ++ ":" ++ toString port := by
  unfold scan_single_endpoint
  rw [if_neg hport]
  cases hf : scan_probe_paths.find?
      (fun e => probeHit net ("http://" ++ ip ++ ":" ++ toString port ++ e)) with
  | some e => exact ⟨_, rfl, rfl⟩
  | none =>
    exfalso
    obtain ⟨e, he, hpe⟩ := hhit
    have := List.find?_eq_none.mp hf e he
    rw [hpe] at this
    exact this rfl

/-- Witness for C8: a host answering 401 on /status at port 32400 is
registered. -/
theorem C8_hit_or_401_registers_device_witness :
    (32400 : Nat) ≠ 32469 ∧
    (∃ e ∈ scan_probe_paths,
      probeHit
        (NetEnv.mk (fun _ => none) (fun _ => [])
          (fun u => if u = "http://10.0.0.7:32400/status" then some (401, "")
            else none)
          (fun _ _ => none))
        ("http://" ++ "10.0.0.7" ++ ":" ++ toString (32400 : Nat) ++ e) = true) ∧
    ∃ d, scan_single_endpoint
        (NetEnv.mk (fun _ => none) (fun _ => [])
          (fun u => if u = "http://10.0.0.7:32400/status" then some (401, "")
            else none)
          (fun _ _ => none)) "10.0.0.7" 32400 = some d ∧
      d.location = "http://" ++ "10.0.0.7" ++ ":" ++ toString (32400 : Nat) :=
  ⟨by decide, ⟨"/status", by decide, rfl⟩,
    C8_hit_or_401_registers_device _ "10.0.0.7" 32400 (by decide)
      ⟨"/status", by decide, rfl⟩⟩

/-- C9: whenever the device has no content-directory URL, or the SOAP
Browse for the resolved container id fails, the browse call does not
stop at the error: the container map is left unchanged, an error is
reported, and the HTTP fallback against the device base URL is
consulted, its entries (when it succeeds) becoming the returned
listing alongside the accumulated error (src/upnp.rs lines 549-574 and
710-754). -/
theorem C9_http_fallback_on_soap_failure (net : NetEnv) (server : UpnpDevice)
    (path : List String) (m : ContainerMap)
    (hfail : server.content_directory_url = none ∨
      ∃ cdUrl e, server.content_directory_url = some cdUrl ∧
        browse_upnp_content_directory_with_id net cdUrl (containerIdFor m path) =
          Except.error e) :
    ((async_browse_directory net server path m).1.2).isSome = true ∧
    (async_browse_directory net server path m).2 = m ∧
    ∀ httpItems,
      browse_http_directory net server.base_url path = Except.ok httpItems →
      (async_browse_directory net server path m).1.1 = httpItems := by
  have key : ∀ err, async_browse_directory net server path m =
      httpFallback net server path [] [err] m →
      ((async_browse_directory net server path m).1.2).isSome = true ∧
      (async_browse_directory net server path m).2 = m ∧
      ∀ httpItems,
        browse_http_directory net server.base_url path = Except.ok httpItems →
        (async_browse_directory net server path m).1.1 = httpItems := by
    intro err heq
    rw [heq]
    unfold httpFallback
    cases hb : browse_http_directory net server.base_url path with
    | ok httpItems =>
      refine ⟨rfl, rfl, ?_⟩
      intro its hits
      cases hits
      rfl
    | error e =>
      refine ⟨rfl, rfl, ?_⟩
      intro its hits
      cases hits
  rcases hfail with hnone | ⟨cdUrl, e, hcd, hbr⟩
  · apply key NavError.noContentDirectory
    unfold async_browse_directory
    rw [hnone]
  · apply key (NavError.upnpFailed e)
    unfold async_browse_directory
    rw [hcd]
    show browseWithCd net server path m cdUrl = _
    unfold browseWithCd
    rw [hbr]

/-- Witness for C9: a device with no content-directory URL whose base
URL serves a MediaContainer body on /library/sections yields the Plex
placeholder listing from the fallback together with an error. -/
theorem C9_http_fallback_on_soap_failure_witness :
    (UpnpDevice.mk "S" "http://10.0.0.3:32400" "http://10.0.0.3:32400"
        none none).content_directory_url = none ∧
    browse_http_directory
        (NetEnv.mk (fun _ => none) (fun _ => [])
          (fun u => if u = "http://10.0.0.3:32400/library/sections" then
              some (200, "\"MediaContainer\"")
            else none)
          (fun _ _ => none))
        "http://10.0.0.3:32400" [] =
      Except.ok [{ name := "Plex Media Server", is_directory := true,
                   url := none, metadata := none }] ∧
    (((async_browse_directory
        (NetEnv.mk (fun _ => none) (fun _ => [])
          (fun u => if u = "http://10.0.0.3:32400/library/sections" then
              some (200, "\"MediaContainer\"")
            else none)
          (fun _ _ => none))
        (UpnpDevice.mk "S" "http://10.0.0.3:32400" "http://10.0.0.3:32400"
          none none)
        [] initialContainerMap).1.2).isSome = true ∧
      (async_browse_directory
        (NetEnv.mk (fun _ => none) (fun _ => [])
          (fun u => if u = "http://10.0.0.3:32400/library/sections" then
              some (200, "\"MediaContainer\"")
            else none)
          (fun _ _ => none))
        (UpnpDevice.mk "S" "http://10.0.0.3:32400" "http://10.0.0.3:32400"
          none none)
        [] initialContainerMap).2 = initialContainerMap ∧
      ∀ httpItems,
        browse_http_directory
          (NetEnv.mk (fun _ => none) (fun _ => [])
            (fun u => if u = "http://10.0.0.3:32400/library/sections" then
                some (200, "\"MediaContainer\"")
              else none)
            (fun _ _ => none))
          (UpnpDevice.mk "S" "http://10.0.0.3:32400" "http://10.0.0.3:32400"
            none none).base_url [] = Except.ok httpItems →
        (async_browse_directory
          (NetEnv.mk (fun _ => none) (fun _ => [])
            (fun u => if u = "http://10.0.0.3:32400/library/sections" then
                some (200, "\"MediaContainer\"")
              else none)
            (fun _ _ => none))
          (UpnpDevice.mk "S" "http://10.0.0.3:32400" "http://10.0.0.3:32400"
            none none)
          [] initialContainerMap).1.1 = httpItems) :=
  ⟨rfl, rfl,
    C9_http_fallback_on_soap_failure _ _ [] initialContainerMap (Or.inl rfl)⟩

/- The concatenated order is one valid interleaving. -/
theorem interleaving_append (xs ys : List DiscoveryMessage) :
    Interleaving xs ys (xs ++ ys) := by
  induction xs with
  | nil =>
    show Interleaving [] ys ys
    induction ys with
    | nil => exact Interleaving.nil
    | cons y ys ihy => exact Interleaving.right ihy
  | cons x xs ihx => exact Interleaving.left ihx

theorem canonicalTrace_isTrace (net : NetEnv)
    (stream : Option (List (Option RawSsdp))) (networkBase : Option String) :
    IsDiscoveryTrace net stream networkBase (canonicalTrace net stream networkBase) :=
  ⟨_, interleaving_append _ _, rfl⟩

/- Interleaving two sequences preserves counting. -/
theorem interleaving_countP (p : DiscoveryMessage → Bool) :
    ∀ {xs ys zs}, Interleaving xs ys zs →
      zs.countP p = xs.countP p + ys.countP p := by
  intro xs ys zs h
  induction h with
  | nil => rfl
  | left h ih => simp only [List.countP_cons, ih]; omega
  | right h ih => simp only [List.countP_cons, ih]; omega

/- Every element of an interleaving comes from one of the two sides. -/
theorem interleaving_mem :
    ∀ {xs ys zs}, Interleaving xs ys zs → ∀ z ∈ zs, z ∈ xs ∨ z ∈ ys := by
  intro xs ys zs h
  induction h with
  | nil => intro z hz; cases hz
  | left h ih =>
    intro z hz
    rcases List.mem_cons.mp hz with rfl | hz'
    · exact Or.inl (List.mem_cons_self _ _)
    · rcases ih z hz' with h1 | h2
      · exact Or.inl (List.mem_cons_of_mem _ h1)
      · exact Or.inr h2
  | right h ih =>
    intro z hz
    rcases List.mem_cons.mp hz with rfl | hz'
    · exact Or.inr (List.mem_cons_self _ _)
    · rcases ih z hz' with h1 | h2
      · exact Or.inl h1
      · exact Or.inr (List.mem_cons_of_mem _ h2)

/- DeviceFound messages are invisible to a classifier that rejects
   them. -/
theorem countP_map_deviceFound (p : DiscoveryMessage → Bool)
    (hp : ∀ d, p (DiscoveryMessage.DeviceFound d) = false) :
    ∀ l : List UpnpDevice, (l.map DiscoveryMessage.DeviceFound).countP p = 0 := by
  intro l
  induction l with
  | nil => rfl
  | cons d rest ih => simp [List.countP_cons, hp, ih]

/- The dedup-by-location fold keeps locations pairwise distinct. -/
theorem dedupByLocation_pairwise :
    ∀ (l acc : List UpnpDevice), acc.Pairwise locNe →
      (dedupByLocation acc l).Pairwise locNe := by
  intro l
  induction l with
  | nil => intro acc h; exact h
  | cons d rest ih =>
    intro acc h
    simp only [dedupByLocation]
    split
    · exact ih acc h
    · rename_i hc
      apply ih
      rw [List.pairwise_append]
      refine ⟨h, List.pairwise_singleton _ _, ?_⟩
      intro a ha b hb
      rw [List.mem_singleton] at hb
      subst hb
      intro heq
      apply hc
      rw [List.any_eq_true]
      refine ⟨a, ha, ?_⟩
      rw [heq]
      exact beq_self_eq_true _

/- The scan-merge fold keeps (location, base URL) pairs distinct. -/
theorem scanMerge_pairwise :
    ∀ (l acc : List UpnpDevice), acc.Pairwise locBaseNe →
      (scanMerge acc l).1.Pairwise locBaseNe := by
  intro l
  induction l with
  | nil => intro acc h; exact h
  | cons d rest ih =>
    intro acc h
    simp only [scanMerge]
    split
    · exact ih acc h
    · rename_i hc
      show (scanMerge (acc ++ [d]) rest).1.Pairwise locBaseNe
      apply ih
      rw [List.pairwise_append]
      refine ⟨h, List.pairwise_singleton _ _, ?_⟩
      intro a ha b hb
      rw [List.mem_singleton] at hb
      subst hb
      rintro ⟨h1, h2⟩
      apply hc
      rw [List.any_eq_true]
      refine ⟨a, ha, ?_⟩
      rw [h1, h2]
      simp

/- When no scan device collides with the accumulator or another scan
   device on location, the merge appends them all. -/
theorem scanMerge_of_fresh :
    ∀ (l acc : List UpnpDevice), l.Pairwise locNe →
      (∀ a ∈ acc, ∀ b ∈ l, a.location ≠ b.location) →
      scanMerge acc l = (acc ++ l, l) := by
  intro l
  induction l with
  | nil => intro acc _ _; simp [scanMerge]
  | cons d rest ih =>
    intro acc hp hd
    simp only [scanMerge]
    rw [if_neg]
    · have hrec : scanMerge (acc ++ [d]) rest = ((acc ++ [d]) ++ rest, rest) := by
        apply ih
        · exact List.Pairwise.of_cons hp
        · intro a ha b hb
          rcases List.mem_append.mp ha with ha' | ha'
          · exact hd a ha' b (List.mem_cons_of_mem _ hb)
          · rw [List.mem_singleton] at ha'
            subst ha'
            exact (List.pairwise_cons.mp hp).1 b hb
      show ((scanMerge (acc ++ [d]) rest).1, d :: (scanMerge (acc ++ [d]) rest).2) =
        (acc ++ d :: rest, d :: rest)
      rw [hrec]
      simp
    · intro hany
      rw [List.any_eq_true] at hany
      obtain ⟨x, hx, hxx⟩ := hany
      simp only [Bool.and_eq_true, beq_iff_eq] at hxx
      exact hd x hx d (List.mem_cons_self _ _) hxx.1

/- The port-scan probe result has pairwise distinct locations. -/
theorem targeted_scan_pairwise (net : NetEnv) (networkBase : Option String) :
    (targeted_port_scan_parallel net networkBase).Pairwise locNe := by
  cases networkBase with
  | none => exact List.Pairwise.nil
  | some b => exact dedupByLocation_pairwise _ [] List.Pairwise.nil

/- The merged AllComplete payload never repeats a (location, base URL)
   pair. -/
theorem finalDevices_pairwise (sd sc : List UpnpDevice) :
    (finalDevices sd sc).Pairwise locBaseNe := by
  apply scanMerge_pairwise
  exact (dedupByLocation_pairwise sd [] List.Pairwise.nil).imp
    (fun h hc => h hc.1)

/- With no SSDP devices the merge returns the scan devices verbatim. -/
theorem finalDevices_nil_left (sc : List UpnpDevice) (h : sc.Pairwise locNe) :
    finalDevices [] sc = sc := by
  unfold finalDevices
  rw [show dedupByLocation [] [] = ([] : List UpnpDevice) from rfl]
  rw [scanMerge_of_fresh sc [] h (by intro a ha; cases ha)]
  simp

/- Every discovery trace carries exactly one AllComplete event. -/
theorem trace_allcomplete_count (net : NetEnv)
    (stream : Option (List (Option RawSsdp))) (networkBase : Option String)
    (t : List DiscoveryMessage) (ht : IsDiscoveryTrace net stream networkBase t) :
    t.countP isAllCompleteMsg = 1 := by
  obtain ⟨mid, hint, rfl⟩ := ht
  have hmid : mid.countP isAllCompleteMsg = 0 := by
    rw [interleaving_countP isAllCompleteMsg hint,
      countP_map_deviceFound isAllCompleteMsg (fun _ => rfl),
      countP_map_deviceFound isAllCompleteMsg (fun _ => rfl)]
  have htail : (orchestratorTail (ssdp_discovery net stream)
      (targeted_port_scan_parallel net networkBase)).countP isAllCompleteMsg = 1 := by
    unfold orchestratorTail
    rw [List.countP_append, List.countP_append,
      countP_map_deviceFound isAllCompleteMsg (fun _ => rfl)]
    rfl
  rw [List.countP_append, List.countP_cons, hmid, htail]
  rfl

/- No discovery trace ever carries an Error event: the discovery path
   of src/upnp.rs never constructs DiscoveryMessage::Error. -/
theorem trace_error_count (net : NetEnv)
    (stream : Option (List (Option RawSsdp))) (networkBase : Option String)
    (t : List DiscoveryMessage) (ht : IsDiscoveryTrace net stream networkBase t) :
    t.countP isErrorMsg = 0 := by
  obtain ⟨mid, hint, rfl⟩ := ht
  have hmid : mid.countP isErrorMsg = 0 := by
    rw [interleaving_countP isErrorMsg hint,
      countP_map_deviceFound isErrorMsg (fun _ => rfl),
      countP_map_deviceFound isErrorMsg (fun _ => rfl)]
  have htail : (orchestratorTail (ssdp_discovery net stream)
      (targeted_port_scan_parallel net networkBase)).countP isErrorMsg = 0 := by
    unfold orchestratorTail
    rw [List.countP_append, List.countP_append,
      countP_map_deviceFound isErrorMsg (fun _ => rfl)]
    rfl
  rw [List.countP_append, List.countP_cons, hmid, htail]
  rfl

/- The AllComplete payload of a discovery trace: it is present, and it
   is always the merged device list. -/
theorem trace_allcomplete_payload (net : NetEnv)
    (stream : Option (List (Option RawSsdp))) (networkBase : Option String)
    (t : List DiscoveryMessage) (ht : IsDiscoveryTrace net stream networkBase t) :
    DiscoveryMessage.AllComplete (finalDevices (ssdp_discovery net stream)
      (targeted_port_scan_parallel net networkBase)) ∈ t ∧
    ∀ ds, DiscoveryMessage.AllComplete ds ∈ t →
      ds = finalDevices (ssdp_discovery net stream)
        (targeted_port_scan_parallel net networkBase) := by
  obtain ⟨mid, hint, rfl⟩ := ht
  constructor
  · apply List.mem_append.mpr
    right
    unfold orchestratorTail
    apply List.mem_append.mpr
    right
    exact List.mem_cons_of_mem _ (List.mem_cons_self _ _)
  · intro ds hds
    rcases List.mem_append.mp hds with hin | hin
    · exfalso
      rcases List.mem_cons.mp hin with he | hin'
      · exact DiscoveryMessage.noConfusion he
      · rcases interleaving_mem hint _ hin' with hm | hm <;>
        · obtain ⟨d, _, hd⟩ := List.mem_map.mp hm
          exact DiscoveryMessage.noConfusion hd
    · unfold orchestratorTail at hin
      rcases List.mem_append.mp hin with h1 | h2
      · exfalso
        rcases List.mem_append.mp h1 with h0 | hmap
        · rcases List.mem_cons.mp h0 with he | h0'
          · exact DiscoveryMessage.noConfusion he
          · rcases List.mem_cons.mp h0' with he | h0''
            · exact DiscoveryMessage.noConfusion he
            · cases h0''
        · obtain ⟨d, _, hd⟩ := List.mem_map.mp hmap
          exact DiscoveryMessage.noConfusion hd
      · rcases List.mem_cons.mp h2 with he | h2'
        · exact absurd he (fun he => DiscoveryMessage.noConfusion he)
        · rcases List.mem_cons.mp h2' with he | h2''
          · injection he
          · cases h2''

/-- C10: for every probe input, the SSDP collection loop contributes at
most 20 devices, and its result is exactly the first 20 successful
stream elements: the loop breaks as soon as the twentieth device has
been received, independently of the discovery window (src/upnp.rs lines
91-136). -/
theorem C10_ssdp_caps_at_twenty (net : NetEnv) :
    (∀ stream, (ssdp_discovery net stream).length ≤ 20) ∧
    ∀ s, ssdp_discovery net (some s) =
      ((s.filterMap id).take 20).map (mkSsdpDevice net) := by
  have step : ∀ (s : List (Option RawSsdp)) (c : Nat), c < 20 →
      ssdpCollect net s c =
        ((s.filterMap id).take (20 - c)).map (mkSsdpDevice net) := by
    intro s
    induction s with
    | nil => intro c _; simp [ssdpCollect]
    | cons o rest ih =>
      intro c hc
      cases o with
      | none =>
        show ssdpCollect net rest c = ((List.filterMap id (none :: rest)).take (20 - c)).map (mkSsdpDevice net)
        rw [ih c hc]
        simp
      | some r =>
        show (if 20 ≤ c + 1 then [mkSsdpDevice net r]
          else mkSsdpDevice net r :: ssdpCollect net rest (c + 1)) =
          ((List.filterMap id (some r :: rest)).take (20 - c)).map (mkSsdpDevice net)
        have hf : List.filterMap id (some r :: rest) = r :: rest.filterMap id := by
          simp
        rw [hf]
        by_cases h20 : 20 ≤ c + 1
        · rw [if_pos h20]
          have h1 : 20 - c = 1 := by omega
          rw [h1]
          rfl
        · rw [if_neg h20]
          have h1 : c + 1 < 20 := by omega
          rw [ih (c + 1) h1]
          have h2 : 20 - c = (20 - (c + 1)) + 1 := by omega
          rw [h2]
          rfl
  have key : ∀ s, ssdp_discovery net (some s) =
      ((s.filterMap id).take 20).map (mkSsdpDevice net) := by
    intro s
    show ssdpCollect net s 0 = _
    rw [step s 0 (by omega)]
  refine ⟨?_, key⟩
  intro stream
  cases stream with
  | none => simp [ssdp_discovery]
  | some s =>
    rw [key s, List.length_map]
    exact List.length_take_le _ _

/-- C1 counterexample: a Plex device at 10.0.21:32469 found by both
probes. The SSDP record gets base URL http://10.0.21:32400 (the Plex
rewrite of src/upnp.rs lines 102-114) while the port-scan record keeps
base URL http://10.0.21:32469, so the merge guard of line 70, which
compares location and base_url together, keeps both records: the
AllComplete list of this run carries two devices with the same
location, refuting the claimed location-deduplication. -/
theorem C1_counterexample :
    IsDiscoveryTrace c1Net c1Stream (some "10.0")
      (canonicalTrace c1Net c1Stream (some "10.0")) ∧
    DiscoveryMessage.AllComplete [c1SsdpDevice, c1ScanDevice] ∈
      canonicalTrace c1Net c1Stream (some "10.0") ∧
    c1SsdpDevice.location = c1ScanDevice.location ∧
    c1SsdpDevice.base_url ≠ c1ScanDevice.base_url ∧
    ¬ List.Pairwise locNe [c1SsdpDevice, c1ScanDevice] := by
  refine ⟨canonicalTrace_isTrace _ _ _, ?_, rfl, ?_, ?_⟩
  · have h : canonicalTrace c1Net c1Stream (some "10.0") =
        [DiscoveryMessage.Started,
         DiscoveryMessage.DeviceFound c1SsdpDevice,
         DiscoveryMessage.DeviceFound c1ScanDevice,
         DiscoveryMessage.Phase1Complete, DiscoveryMessage.Phase2Complete,
         DiscoveryMessage.DeviceFound c1ScanDevice,
         DiscoveryMessage.Phase3Complete,
         DiscoveryMessage.AllComplete [c1SsdpDevice, c1ScanDevice]] := by rfl
    rw [h]
    simp
  · decide
  · intro hp
    exact (List.pairwise_cons.mp hp).1 c1ScanDevice (List.mem_cons_self _ _) rfl

/-- C1 (amended): every discovery run emits exactly one AllComplete
event, and its device list never contains two devices agreeing on both
location and base_url. SSDP devices are deduplicated among themselves
by location alone, but a port-scan device is kept next to an equal
location when its base URL differs (src/upnp.rs lines 54-75), so
duplicate locations across the two probes are possible (see
C1_counterexample). -/
theorem C1_one_allcomplete_pair_dedup (net : NetEnv)
    (stream : Option (List (Option RawSsdp))) (networkBase : Option String)
    (t : List DiscoveryMessage) (ht : IsDiscoveryTrace net stream networkBase t) :
    t.countP isAllCompleteMsg = 1 ∧
    ∀ ds, DiscoveryMessage.AllComplete ds ∈ t → ds.Pairwise locBaseNe := by
  refine ⟨trace_allcomplete_count net stream networkBase t ht, ?_⟩
  intro ds hds
  rw [(trace_allcomplete_payload net stream networkBase t ht).2 ds hds]
  exact finalDevices_pairwise _ _

/-- Witness for C1 (amended) at the concrete two-probe overlap run. -/
theorem C1_one_allcomplete_pair_dedup_witness :
    IsDiscoveryTrace c1Net c1Stream (some "10.0")
      (canonicalTrace c1Net c1Stream (some "10.0")) ∧
    ((canonicalTrace c1Net c1Stream (some "10.0")).countP isAllCompleteMsg = 1 ∧
      ∀ ds, DiscoveryMessage.AllComplete ds ∈
          canonicalTrace c1Net c1Stream (some "10.0") →
        ds.Pairwise locBaseNe) :=
  ⟨canonicalTrace_isTrace _ _ _,
    C1_one_allcomplete_pair_dedup _ _ _ _ (canonicalTrace_isTrace _ _ _)⟩

/-- C3 counterexample: with rupnp::discover failing (modelled by the
absent stream), the run of src/upnp.rs only logs the failure at line
139; its trace contains zero Error events, refuting the claim that the
failure is reported as an Error event, while the port-scan device is
still delivered in the AllComplete list. -/
theorem C3_counterexample :
    IsDiscoveryTrace c1Net none (some "10.0")
      (canonicalTrace c1Net none (some "10.0")) ∧
    (canonicalTrace c1Net none (some "10.0")).countP isErrorMsg = 0 ∧
    DiscoveryMessage.AllComplete [c1ScanDevice] ∈
      canonicalTrace c1Net none (some "10.0") := by
  refine ⟨canonicalTrace_isTrace _ _ _, rfl, ?_⟩
  have h : canonicalTrace c1Net none (some "10.0") =
      [DiscoveryMessage.Started,
       DiscoveryMessage.DeviceFound c1ScanDevice,
       DiscoveryMessage.Phase1Complete, DiscoveryMessage.Phase2Complete,
       DiscoveryMessage.DeviceFound c1ScanDevice,
       DiscoveryMessage.Phase3Complete,
       DiscoveryMessage.AllComplete [c1ScanDevice]] := by rfl
  rw [h]
  simp

/-- C3 (amended): when the multicast probe fails internally the
orchestrator emits no Error event at all (the failure is only logged,
src/upnp.rs line 139); the port-scan probe is unaffected and its
devices form the entire AllComplete list, the failed probe contributing
zero devices; exactly one AllComplete is still emitted. -/
theorem C3_ssdp_failure_isolated_no_error_event (net : NetEnv)
    (networkBase : Option String) (t : List DiscoveryMessage)
    (ht : IsDiscoveryTrace net none networkBase t) :
    t.countP isErrorMsg = 0 ∧
    t.countP isAllCompleteMsg = 1 ∧
    DiscoveryMessage.AllComplete (targeted_port_scan_parallel net networkBase) ∈ t := by
  refine ⟨trace_error_count net none networkBase t ht,
    trace_allcomplete_count net none networkBase t ht, ?_⟩
  have hmem := (trace_allcomplete_payload net none networkBase t ht).1
  rwa [show ssdp_discovery net none = [] from rfl,
    finalDevices_nil_left _ (targeted_scan_pairwise net networkBase)] at hmem

/-- Witness for C3 (amended) at the concrete failed-SSDP run. -/
theorem C3_ssdp_failure_isolated_no_error_event_witness :
    IsDiscoveryTrace c1Net none (some "10.0")
      (canonicalTrace c1Net none (some "10.0")) ∧
    ((canonicalTrace c1Net none (some "10.0")).countP isErrorMsg = 0 ∧
      (canonicalTrace c1Net none (some "10.0")).countP isAllCompleteMsg = 1 ∧
      DiscoveryMessage.AllComplete (targeted_port_scan_parallel c1Net (some "10.0")) ∈
        canonicalTrace c1Net none (some "10.0")) :=
  ⟨canonicalTrace_isTrace _ _ _,
    C3_ssdp_failure_isolated_no_error_event _ _ _ (canonicalTrace_isTrace _ _ _)⟩

end Mop
